import Mathlib

/-!
Shallow embedding of the worker dispatch/session/liveness engine of
`cocaine-framework-python` (`src/cocaine/worker.py`), together with proofs
about its message-handling rules, session-table lifecycle and liveness
timers.

The reactor/timer primitives (`asio.ev`), the handler registry
(`cocaine.sessioncontext.Sandbox`) and the per-session `Request` handles are
external collaborators of the core (they are not part of the dispatched
logic in `worker.py`); they are modelled from the specification as oracles
(`Env`) and as explicit timer state (`disownDeadline`, `nextHeartbeat`).
-/

namespace Cocaine

/-- Inbound protocol messages, the result of `Message.initialize` on a decoded
frame (`src/cocaine/worker.py` line 99).  `other` stands for any message whose
kind matches none of the dispatch branches of `on_message` (including an
inbound HANDSHAKE) as well as a frame `Message.initialize` rejects (returns
`None`); both are handled identically, by falling through `on_message` with no
effect. -/
inductive InMsg
  | invoke (session : Nat) (event : String)
  | chunk (session : Nat) (data : List Nat)
  | choke (session : Nat)
  | heartbeat (session : Nat)
  | terminate (session : Nat) (reason : Nat) (message : String)
  | error (session : Nat) (code : Nat) (message : String)
  | other
deriving DecidableEq, Repr

/-- Outbound protocol messages written to `w_stream`
(`Message(...).pack()` calls in `src/cocaine/worker.py`). -/
inductive OutMsg
  | handshake (session : Nat) (uuid : String)
  | heartbeat (session : Nat)
  | terminate (session : Nat) (reason : Nat) (message : String)
  | chunk (session : Nat) (data : List Nat)
  | choke (session : Nat)
deriving DecidableEq, Repr

/-- Operations delivered to a per-session `Request` handle
(`push` / `close` / `error`, per the request-side contract). -/
inductive ReqEvent
  | push (data : List Nat)
  | close
  | error (message : String)
deriving DecidableEq, Repr

/-- Error-level log records emitted by the dispatcher
(`self._logger.error(...)` calls in `src/cocaine/worker.py`). -/
inductive LogEntry
  | invokeError
  | pushError
  | disowned
deriving DecidableEq, Repr

/-- An exception escaping `on_message` uncaught: `close()` on CHOKE
(line 124) and `error()` on ERROR (line 137) are not wrapped in
`try/except`, so an exception they raise propagates out of the dispatcher. -/
inductive Exn
  | closeFailed (handle : Nat)
  | errorFailed (handle : Nat)
deriving DecidableEq, Repr

/-- Modelled from the spec: behaviour of the external collaborators — the
handler registry (`Sandbox.invoke`) and the `Request` handles (`push`,
`close`, `error`) — which live outside `src/cocaine/worker.py`.  Each oracle
says whether the corresponding external call returns normally (`true`) or
raises (`false`).  `Request` handles are identified by the `Nat` assigned at
their creation. -/
structure Env where
  sandboxOk : String → Bool
  pushOk : Nat → List Nat → Bool
  closeOk : Nat → Bool
  errorOk : Nat → String → Bool

/-- State of one `Worker` object (`src/cocaine/worker.py` lines 41-155).
`sessions` is the session table (`self.sessions`, a dict from session id to
the registered `Request` handle).  `nextHandle` numbers the `Request`
objects created by `Request()` on INVOKE.  `reqEvents` records, in order,
every operation successfully delivered to a `Request` handle.  `out` records,
in order, every message written to `w_stream`.  `disownDeadline` is the fire
time of the armed one-shot disown timer (`none` when disarmed),
`nextHeartbeat` the next fire time of the periodic heartbeat timer — both
modelled from the spec since `asio.ev.Timer` is external (disown delay 2,
heartbeat period 5).  `running` is whether `self.service` is still running,
and `logs` the error-level log trace. -/
structure Worker where
  id : String
  sessions : Nat → Option Nat
  nextHandle : Nat
  reqEvents : List (Nat × ReqEvent)
  out : List OutMsg
  now : Nat
  disownDeadline : Option Nat
  nextHeartbeat : Option Nat
  running : Bool
  logs : List LogEntry

/-- Python `d[k] = v` on the session dict. -/
def dictSet (d : Nat → Option Nat) (k v : Nat) : Nat → Option Nat :=
  fun q => if q = k then some v else d q

/-- Python `d.pop(k)` on the session dict (only ever called on a present
key in `on_message`). -/
def dictPop (d : Nat → Option Nat) (k : Nat) : Nat → Option Nat :=
  fun q => if q = k then none else d q

/-- Embeds `Worker.terminate` (`src/cocaine/worker.py` lines 86-88): write
one outbound TERMINATE with session id 0 echoing the reason and message,
then stop the reactor. -/
def terminate (reason : Nat) (m : String) (w : Worker) : Worker :=
  { w with out := w.out ++ [OutMsg.terminate 0 reason m], running := false }

/-- Embeds `Worker.on_message` (`src/cocaine/worker.py` lines 98-137), the
central dispatch routine.  Returns the updated worker state together with
`some e` when an exception escapes the handler uncaught (the unguarded
`close()` and `error()` calls), `none` when `on_message` returns normally. -/
def on_message (env : Env) (msg : InMsg) (w : Worker) : Worker × Option Exn :=
  match msg with
  | .invoke session event =>
      -- lines 102-109: the whole block is inside try/except
      let h := w.nextHandle
      let w1 := { w with nextHandle := h + 1 }  -- `_request = Request()`
      if env.sandboxOk event then
        ({ w1 with sessions := dictSet w1.sessions session h }, none)
      else
        ({ w1 with logs := w1.logs ++ [LogEntry.invokeError] }, none)
  | .chunk session data =>
      -- lines 111-118: `push` is inside try/except
      match w.sessions session with
      | some h =>
          if env.pushOk h data then
            ({ w with reqEvents := w.reqEvents ++ [(h, ReqEvent.push data)] }, none)
          else
            ({ w with logs := w.logs ++ [LogEntry.pushError] }, none)
      | none => (w, none)
  | .choke session =>
      -- lines 120-125: `close()` and the `pop` are not guarded
      match w.sessions session with
      | some h =>
          if env.closeOk h then
            ({ w with reqEvents := w.reqEvents ++ [(h, ReqEvent.close)],
                      sessions := dictPop w.sessions session }, none)
          else
            (w, some (Exn.closeFailed h))
      | none => (w, none)
  | .heartbeat _ =>
      -- lines 127-128: `self.disown_timer.stop()`
      ({ w with disownDeadline := none }, none)
  | .terminate _ reason m =>
      -- lines 130-132
      (terminate reason m w, none)
  | .error session _ m =>
      -- lines 134-137: `error()` is not guarded
      match w.sessions session with
      | some h =>
          if env.errorOk h m then
            ({ w with reqEvents := w.reqEvents ++ [(h, ReqEvent.error m)] }, none)
          else
            (w, some (Exn.errorFailed h))
      | none => (w, none)
  | .other => (w, none)

/-- Embeds `Worker._send_handshake` (`src/cocaine/worker.py` lines 144-145):
write one HANDSHAKE with session id 0 carrying the worker identity. -/
def send_handshake (w : Worker) : Worker :=
  { w with out := w.out ++ [OutMsg.handshake 0 w.id] }

/-- Embeds `Worker.on_heartbeat` / `Worker._send_heartbeat`
(`src/cocaine/worker.py` lines 95-96 and 147-149): rearm the disown timer
(deadline `now + 2`, the timer delay — modelled from the spec), then write a
HEARTBEAT to the peer. -/
def send_heartbeat (w : Worker) : Worker :=
  { w with disownDeadline := some (w.now + 2),
           out := w.out ++ [OutMsg.heartbeat 0] }

/-- Embeds `Worker.on_disown` (`src/cocaine/worker.py` lines 139-141): log
the disown condition and stop the reactor. -/
def on_disown (w : Worker) : Worker :=
  { w with logs := w.logs ++ [LogEntry.disowned], running := false }

/-- Embeds `Worker.send_chunk` (`src/cocaine/worker.py` lines 154-155). -/
def send_chunk (s : Nat) (d : List Nat) (w : Worker) : Worker :=
  { w with out := w.out ++ [OutMsg.chunk s d] }

/-- Embeds `Worker.send_choke` (`src/cocaine/worker.py` lines 151-152). -/
def send_choke (s : Nat) (w : Worker) : Worker :=
  { w with out := w.out ++ [OutMsg.choke s] }

/-- One steady-state event seen by the reactor: receipt of a decoded inbound
message, a heartbeat-timer fire, a disown-timer fire, or a handler-driven
outbound write through `send_chunk` / `send_choke`. -/
inductive Ev
  | recv (m : InMsg)
  | hbFire
  | disownFire
  | sendChunk (s : Nat) (d : List Nat)
  | sendChoke (s : Nat)
deriving DecidableEq, Repr

/-- Effect of one reactor event on the worker state.  Timer fires advance the
clock to the timer's scheduled time; a stopped timer (field `none`) does not
fire.  The periodic heartbeat timer reschedules itself with period 5; the
one-shot disown timer does not (modelled from the spec for `asio.ev.Timer`). -/
def stepEv (env : Env) (e : Ev) (w : Worker) : Worker :=
  match e with
  | .recv m => (on_message env m w).1
  | .hbFire =>
      match w.nextHeartbeat with
      | some t => send_heartbeat { w with now := t, nextHeartbeat := some (t + 5) }
      | none => w
  | .disownFire =>
      match w.disownDeadline with
      | some t => on_disown { w with now := t, disownDeadline := none }
      | none => w
  | .sendChunk s d => send_chunk s d w
  | .sendChoke s => send_choke s w

/-- Drive the worker through a sequence of reactor events; once the reactor
is stopped (`running = false`) no further event is processed. -/
def runEvents (env : Env) : List Ev → Worker → Worker
  | [], w => w
  | e :: es, w => if w.running then runEvents env es (stepEv env e w) else w

/-- The observable effects of `Worker.__init__`
(`src/cocaine/worker.py` lines 43-70), in source order: arm the disown timer
(line 54), start the heartbeat timer (line 55), write the handshake
(line 70). -/
inductive InitStep
  | armDisown
  | armHeartbeat
  | writeHandshake
deriving DecidableEq, Repr

/-- Execute one `__init__` effect. -/
def execInitStep (w : Worker) : InitStep → Worker
  | .armDisown => { w with disownDeadline := some (w.now + 2) }
  | .armHeartbeat => { w with nextHeartbeat := some (w.now + 5) }
  | .writeHandshake => send_handshake w

/-- The `__init__` effects in the order the source performs them. -/
def initTrace : List InitStep := [InitStep.armDisown, InitStep.armHeartbeat, InitStep.writeHandshake]

/-- Worker state as built before any `__init__` effect runs: empty session
table, no traffic, both timers unarmed, reactor considered running, clock 0. -/
def worker0 (uuid : String) : Worker :=
  { id := uuid, sessions := fun _ => none, nextHandle := 0, reqEvents := [],
    out := [], now := 0, disownDeadline := none, nextHeartbeat := none,
    running := true, logs := [] }

/-- Worker state right after `__init__` returns. -/
def initWorker (uuid : String) : Worker :=
  List.foldl execInitStep (worker0 uuid) initTrace

/-- Run the reactor with a peer that never sends anything: at each step the
earliest pending timer fires (the disown timer wins ties); stops when the
reactor is stopped, no timer is pending, or the fuel runs out. -/
def runSilent : Nat → Worker → Worker
  | 0, w => w
  | fuel + 1, w =>
      if w.running then
        match w.disownDeadline, w.nextHeartbeat with
        | some d, some h =>
            if d ≤ h then
              runSilent fuel (on_disown { w with now := d, disownDeadline := none })
            else
              runSilent fuel (send_heartbeat { w with now := h, nextHeartbeat := some (h + 5) })
        | some d, none =>
            runSilent fuel (on_disown { w with now := d, disownDeadline := none })
        | none, some h =>
            runSilent fuel (send_heartbeat { w with now := h, nextHeartbeat := some (h + 5) })
        | none, none => w
      else w

/-- Whether an outbound message is a HANDSHAKE. -/
def isHandshake : OutMsg → Bool
  | .handshake _ _ => true
  | _ => false

/-- Oracle under which every external call returns normally. -/
def env0 : Env :=
  { sandboxOk := fun _ => true, pushOk := fun _ _ => true,
    closeOk := fun _ => true, errorOk := fun _ _ => true }

/-- Oracle under which every external call raises. -/
def envFail : Env :=
  { sandboxOk := fun _ => false, pushOk := fun _ _ => false,
    closeOk := fun _ => false, errorOk := fun _ _ => false }

/-- Concrete worker with session 7 registered to `Request` handle 0, as left
by a successful INVOKE on a fresh worker. -/
def wReg : Worker := (on_message env0 (InMsg.invoke 7 "e") (worker0 "u")).1

/-- Message dispatch never arms the disown timer: if the deadline is
disarmed before `on_message`, it is disarmed after. -/
theorem on_message_keeps_disarmed (env : Env) (m : InMsg) (w : Worker)
    (h : w.disownDeadline = none) :
    (on_message env m w).1.disownDeadline = none := by
  cases m with
  | invoke s e => by_cases hs : env.sandboxOk e = true <;> simp [on_message, hs, h]
  | chunk s d =>
      cases hws : w.sessions s with
      | none => simp [on_message, hws, h]
      | some h2 => by_cases hp : env.pushOk h2 d = true <;> simp [on_message, hws, hp, h]
  | choke s =>
      cases hws : w.sessions s with
      | none => simp [on_message, hws, h]
      | some h2 => by_cases hc : env.closeOk h2 = true <;> simp [on_message, hws, hc, h]
  | heartbeat s => simp [on_message]
  | terminate s r mm => simp [on_message, terminate, h]
  | error s c mm =>
      cases hws : w.sessions s with
      | none => simp [on_message, hws, h]
      | some h2 => by_cases he : env.errorOk h2 mm = true <;> simp [on_message, hws, he, h]
  | other => simp [on_message, h]

/-- One dispatch or timer event only ever appends to the outbound trace, and
never appends a HANDSHAKE. -/
theorem on_message_out_no_handshake (env : Env) (m : InMsg) (w : Worker) :
    ∃ app, (on_message env m w).1.out = w.out ++ app
      ∧ List.countP isHandshake app = 0 := by
  cases m with
  | invoke s e =>
      by_cases hs : env.sandboxOk e = true <;> exact ⟨[], by simp [on_message, hs], by simp⟩
  | chunk s d =>
      cases hws : w.sessions s with
      | none => exact ⟨[], by simp [on_message, hws], by simp⟩
      | some h2 => by_cases hp : env.pushOk h2 d = true <;>
          exact ⟨[], by simp [on_message, hws, hp], by simp⟩
  | choke s =>
      cases hws : w.sessions s with
      | none => exact ⟨[], by simp [on_message, hws], by simp⟩
      | some h2 => by_cases hc : env.closeOk h2 = true <;>
          exact ⟨[], by simp [on_message, hws, hc], by simp⟩
  | heartbeat s => exact ⟨[], by simp [on_message], by simp⟩
  | terminate s r mm =>
      exact ⟨[OutMsg.terminate 0 r mm], by simp [on_message, terminate], by simp [isHandshake]⟩
  | error s c mm =>
      cases hws : w.sessions s with
      | none => exact ⟨[], by simp [on_message, hws], by simp⟩
      | some h2 => by_cases he : env.errorOk h2 mm = true <;>
          exact ⟨[], by simp [on_message, hws, he], by simp⟩
  | other => exact ⟨[], by simp [on_message], by simp⟩

/-- Every steady-state event appends only non-HANDSHAKE messages to the
outbound trace. -/
theorem stepEv_out_no_handshake (env : Env) (e : Ev) (w : Worker) :
    ∃ app, (stepEv env e w).out = w.out ++ app
      ∧ List.countP isHandshake app = 0 := by
  cases e with
  | recv m => exact on_message_out_no_handshake env m w
  | hbFire =>
      cases hnh : w.nextHeartbeat with
      | none => exact ⟨[], by simp [stepEv, hnh], by simp⟩
      | some t =>
          exact ⟨[OutMsg.heartbeat 0], by simp [stepEv, hnh, send_heartbeat], by simp [isHandshake]⟩
  | disownFire =>
      cases hdd : w.disownDeadline with
      | none => exact ⟨[], by simp [stepEv, hdd], by simp⟩
      | some t => exact ⟨[], by simp [stepEv, hdd, on_disown], by simp⟩
  | sendChunk s d =>
      exact ⟨[OutMsg.chunk s d], by simp [stepEv, send_chunk], by simp [isHandshake]⟩
  | sendChoke s =>
      exact ⟨[OutMsg.choke s], by simp [stepEv, send_choke], by simp [isHandshake]⟩

/-- If the outbound trace starts with a HANDSHAKE followed by no other
HANDSHAKE, this stays true through any sequence of reactor events. -/
theorem runEvents_handshake_first (env : Env) (uuid : String) (evs : List Ev) :
    ∀ w : Worker,
      (∃ rest, w.out = OutMsg.handshake 0 uuid :: rest ∧ List.countP isHandshake rest = 0) →
      ∃ rest, (runEvents env evs w).out = OutMsg.handshake 0 uuid :: rest
        ∧ List.countP isHandshake rest = 0 := by
  induction evs with
  | nil => intro w h; simpa [runEvents] using h
  | cons e es ih =>
      intro w h
      cases hrun : w.running with
      | false => simpa [runEvents, hrun] using h
      | true =>
          obtain ⟨rest, hout, hcnt⟩ := h
          obtain ⟨app, happ, hacnt⟩ := stepEv_out_no_handshake env e w
          have hcons : (stepEv env e w).out = OutMsg.handshake 0 uuid :: (rest ++ app) := by
            rw [happ, hout]; simp
          have hrest : List.countP isHandshake (rest ++ app) = 0 := by
            simp [List.countP_append, hcnt, hacnt]
          simpa [runEvents, hrun] using ih (stepEv env e w) ⟨rest ++ app, hcons, hrest⟩

/-- A stopped reactor never takes another silent-run step. -/
theorem runSilent_stopped (w : Worker) (h : w.running = false) :
    ∀ fuel, runSilent fuel w = w := by
  intro fuel
  cases fuel <;> simp [runSilent, h]

/-- C1: dispatching INVOKE(s, e), CHUNK(s, d), CHOKE(s) to a worker whose
handler registry succeeds on e and whose `Request` operations do not raise
delivers `push d` then `close` to the `Request` handle created by the INVOKE,
raises nothing, and leaves s absent from the session table. -/
theorem C1_invoke_chunk_choke_lifecycle (env : Env) (w : Worker) (s : Nat)
    (e : String) (d : List Nat)
    (hs : env.sandboxOk e = true)
    (hp : env.pushOk w.nextHandle d = true)
    (hc : env.closeOk w.nextHandle = true) :
    let w1 := (on_message env (InMsg.invoke s e) w).1
    let w2 := (on_message env (InMsg.chunk s d) w1).1
    let w3 := (on_message env (InMsg.choke s) w2).1
    w3.reqEvents
        = w.reqEvents ++ [(w.nextHandle, ReqEvent.push d), (w.nextHandle, ReqEvent.close)]
    ∧ w3.sessions s = none
    ∧ (on_message env (InMsg.invoke s e) w).2 = none
    ∧ (on_message env (InMsg.chunk s d) w1).2 = none
    ∧ (on_message env (InMsg.choke s) w2).2 = none := by
  simp [on_message, dictSet, dictPop, hs, hp, hc]

/-- Closed instance of `C1_invoke_chunk_choke_lifecycle` on a fresh worker,
session 7, event "e", payload [120]. -/
theorem C1_invoke_chunk_choke_lifecycle_witness :
    env0.sandboxOk "e" = true
    ∧ env0.pushOk (worker0 "u").nextHandle [120] = true
    ∧ env0.closeOk (worker0 "u").nextHandle = true
    ∧ ((on_message env0 (InMsg.choke 7)
          ((on_message env0 (InMsg.chunk 7 [120])
            ((on_message env0 (InMsg.invoke 7 "e") (worker0 "u")).1)).1)).1.reqEvents
        = [(0, ReqEvent.push [120]), (0, ReqEvent.close)]
      ∧ (on_message env0 (InMsg.choke 7)
          ((on_message env0 (InMsg.chunk 7 [120])
            ((on_message env0 (InMsg.invoke 7 "e") (worker0 "u")).1)).1)).1.sessions 7 = none) := by
  have h := C1_invoke_chunk_choke_lifecycle env0 (worker0 "u") 7 "e" [120] rfl rfl rfl
  exact ⟨rfl, rfl, rfl, h.1, h.2.1⟩

/-- C2 as stated fails on the code: with session 7 registered, a `close()`
that raises on CHOKE escapes `on_message` uncaught instead of being caught
and logged; moreover the entry stays in the session table (the `pop` is
skipped) and nothing is logged. -/
theorem C2_counterexample_choke_close_uncaught :
    (on_message envFail (InMsg.choke 7) wReg).2 = some (Exn.closeFailed 0)
    ∧ (on_message envFail (InMsg.choke 7) wReg).1.sessions 7 = some 0
    ∧ (on_message envFail (InMsg.choke 7) wReg).1.logs = [] :=
  ⟨rfl, rfl, rfl⟩

/-- C2 amended: on a registered session, only `push` on CHUNK is guarded —
an exception it raises is caught and logged; exceptions raised by `close()`
on CHOKE and by `error()` on ERROR are not caught and escape the dispatcher,
and on CHOKE the session table entry is then not removed. -/
theorem C2_amended_delivery_exceptions (env : Env) (w : Worker) (s : Nat)
    (d : List Nat) (code : Nat) (m : String) (h : Nat)
    (hreg : w.sessions s = some h) :
    (env.pushOk h d = false →
      on_message env (InMsg.chunk s d) w
        = ({ w with logs := w.logs ++ [LogEntry.pushError] }, none))
    ∧ (env.closeOk h = false →
      on_message env (InMsg.choke s) w = (w, some (Exn.closeFailed h)))
    ∧ (env.errorOk h m = false →
      on_message env (InMsg.error s code m) w = (w, some (Exn.errorFailed h))) := by
  refine ⟨fun hp => ?_, fun hc => ?_, fun he => ?_⟩ <;> simp [on_message, hreg, *]

/-- Closed instance of `C2_amended_delivery_exceptions` on a worker with
session 7 registered to handle 0, under the all-raising oracle. -/
theorem C2_amended_delivery_exceptions_witness :
    wReg.sessions 7 = some 0
    ∧ on_message envFail (InMsg.chunk 7 [1]) wReg
        = ({ wReg with logs := wReg.logs ++ [LogEntry.pushError] }, none)
    ∧ on_message envFail (InMsg.choke 7) wReg = (wReg, some (Exn.closeFailed 0))
    ∧ on_message envFail (InMsg.error 7 0 "m") wReg = (wReg, some (Exn.errorFailed 0)) := by
  have h := C2_amended_delivery_exceptions envFail wReg 7 [1] 0 "m" 0 rfl
  exact ⟨rfl, h.1 rfl, h.2.1 rfl, h.2.2 rfl⟩

/-- C4: an inbound TERMINATE(reason R, message M) appends exactly one
outbound TERMINATE echoing R and M, stops the reactor, raises nothing,
leaves the session table untouched, and no subsequent event is processed. -/
theorem C4_terminate_echo_and_stop (env : Env) (w : Worker) (sess R : Nat)
    (M : String) (evs : List Ev) :
    (on_message env (InMsg.terminate sess R M) w).1.out = w.out ++ [OutMsg.terminate 0 R M]
    ∧ (on_message env (InMsg.terminate sess R M) w).1.running = false
    ∧ (on_message env (InMsg.terminate sess R M) w).2 = none
    ∧ (on_message env (InMsg.terminate sess R M) w).1.sessions = w.sessions
    ∧ runEvents env evs (on_message env (InMsg.terminate sess R M) w).1
        = (on_message env (InMsg.terminate sess R M) w).1 := by
  refine ⟨rfl, rfl, rfl, rfl, ?_⟩
  cases evs <;> simp [runEvents, on_message, terminate]

/-- C5: if the handler lookup/invocation raises on INVOKE, the exception is
caught and logged, nothing else in the worker changes — in particular the
invoking session id is not registered — and the reactor keeps running. -/
theorem C5_invoke_failure_contained (env : Env) (w : Worker) (s : Nat)
    (e : String) (hfail : env.sandboxOk e = false) :
    (on_message env (InMsg.invoke s e) w).1.sessions = w.sessions
    ∧ (on_message env (InMsg.invoke s e) w).1.logs = w.logs ++ [LogEntry.invokeError]
    ∧ (on_message env (InMsg.invoke s e) w).2 = none
    ∧ (on_message env (InMsg.invoke s e) w).1.running = w.running
    ∧ (on_message env (InMsg.invoke s e) w).1.reqEvents = w.reqEvents
    ∧ (on_message env (InMsg.invoke s e) w).1.out = w.out := by
  simp [on_message, hfail]

/-- Closed instance of `C5_invoke_failure_contained` on a fresh worker under
the all-raising oracle. -/
theorem C5_invoke_failure_contained_witness :
    envFail.sandboxOk "e" = false
    ∧ (on_message envFail (InMsg.invoke 7 "e") (worker0 "u")).1.sessions 7 = none
    ∧ (on_message envFail (InMsg.invoke 7 "e") (worker0 "u")).1.logs = [LogEntry.invokeError]
    ∧ (on_message envFail (InMsg.invoke 7 "e") (worker0 "u")).2 = none := by
  have h := C5_invoke_failure_contained envFail (worker0 "u") 7 "e" rfl
  exact ⟨rfl, by rw [h.1]; rfl, by rw [h.2.1]; rfl, h.2.2.1⟩

/-- C8: an ERROR for a registered session delivers an error to that session's
`Request` but keeps the entry in the session table; and among all message
rules, only CHOKE can remove an entry from the session table. -/
theorem C8_error_keeps_session (env : Env) (w : Worker) (s : Nat) (code : Nat)
    (m : String) (h : Nat)
    (hreg : w.sessions s = some h) (hok : env.errorOk h m = true) :
    (on_message env (InMsg.error s code m) w).1.reqEvents
        = w.reqEvents ++ [(h, ReqEvent.error m)]
    ∧ (on_message env (InMsg.error s code m) w).1.sessions = w.sessions
    ∧ (∀ msg : InMsg, ∀ sid hid, w.sessions sid = some hid →
        (on_message env msg w).1.sessions sid = none → msg = InMsg.choke sid) := by
  refine ⟨by simp [on_message, hreg, hok], by simp [on_message, hreg, hok], ?_⟩
  intro msg sid hid hr hnone
  cases msg with
  | invoke s2 e2 =>
      by_cases hsb : env.sandboxOk e2 = true
      · simp [on_message, hsb, dictSet] at hnone
        by_cases hq : sid = s2
        · simp [hq] at hnone
        · simp [hq, hr] at hnone
      · simp [on_message, hsb, hr] at hnone
  | chunk s2 d2 =>
      cases hws : w.sessions s2 with
      | none => simp [on_message, hws, hr] at hnone
      | some h2 =>
          by_cases hpk : env.pushOk h2 d2 = true <;>
            simp [on_message, hws, hpk, hr] at hnone
  | choke s2 =>
      cases hws : w.sessions s2 with
      | none => simp [on_message, hws, hr] at hnone
      | some h2 =>
          by_cases hcl : env.closeOk h2 = true
          · simp [on_message, hws, hcl, dictPop] at hnone
            by_cases hq : sid = s2
            · subst hq; rfl
            · simp [hq, hr] at hnone
          · simp [on_message, hws, hcl, hr] at hnone
  | heartbeat s2 => simp [on_message, hr] at hnone
  | terminate s2 r2 m2 => simp [on_message, terminate, hr] at hnone
  | error s2 c2 m2 =>
      cases hws : w.sessions s2 with
      | none => simp [on_message, hws, hr] at hnone
      | some h2 =>
          by_cases hek : env.errorOk h2 m2 = true <;>
            simp [on_message, hws, hek, hr] at hnone
  | other => simp [on_message, hr] at hnone

/-- Closed instance of `C8_error_keeps_session` on a worker with session 7
registered to handle 0. -/
theorem C8_error_keeps_session_witness :
    wReg.sessions 7 = some 0
    ∧ env0.errorOk 0 "m" = true
    ∧ (on_message env0 (InMsg.error 7 0 "m") wReg).1.reqEvents = [(0, ReqEvent.error "m")]
    ∧ (on_message env0 (InMsg.error 7 0 "m") wReg).1.sessions 7 = some 0 := by
  have h := C8_error_keeps_session env0 wReg 7 0 "m" 0 rfl rfl
  exact ⟨rfl, rfl, by rw [h.1]; rfl, by rw [h.2.1]; rfl⟩

/-- C9: a successful INVOKE on an already-registered session id overwrites
the entry with the freshly created `Request` handle; the old handle receives
no `close` and no `error`, nothing is logged, nothing is raised, and other
sessions are untouched. -/
theorem C9_invoke_overwrites_silently (env : Env) (w : Worker) (s : Nat)
    (e : String) (hOld : Nat)
    (hreg : w.sessions s = some hOld) (hok : env.sandboxOk e = true) :
    (on_message env (InMsg.invoke s e) w).1.sessions s = some w.nextHandle
    ∧ (∀ q, q ≠ s → (on_message env (InMsg.invoke s e) w).1.sessions q = w.sessions q)
    ∧ (on_message env (InMsg.invoke s e) w).1.reqEvents = w.reqEvents
    ∧ (on_message env (InMsg.invoke s e) w).1.logs = w.logs
    ∧ (on_message env (InMsg.invoke s e) w).2 = none := by
  refine ⟨?_, ?_, ?_, ?_, ?_⟩ <;> simp [on_message, hok, dictSet]
  intro q hq
  simp [hq]

/-- Closed instance of `C9_invoke_overwrites_silently`: re-INVOKE session 7
on a worker already holding handle 0 there registers handle 1. -/
theorem C9_invoke_overwrites_silently_witness :
    wReg.sessions 7 = some 0
    ∧ env0.sandboxOk "f" = true
    ∧ (on_message env0 (InMsg.invoke 7 "f") wReg).1.sessions 7 = some 1
    ∧ (on_message env0 (InMsg.invoke 7 "f") wReg).1.reqEvents = []
    ∧ (on_message env0 (InMsg.invoke 7 "f") wReg).1.logs = [] := by
  have h := C9_invoke_overwrites_silently env0 wReg 7 "f" 0 rfl rfl
  exact ⟨rfl, rfl, h.1, by rw [h.2.2.1]; rfl, by rw [h.2.2.2.1]; rfl⟩

/-- C6: for a session id absent from the session table, CHUNK, CHOKE and
ERROR are exact no-ops: no `Request` operation is attempted, no exception
escapes, and the worker state is unchanged. -/
theorem C6_unknown_session_noop (env : Env) (w : Worker) (s : Nat)
    (d : List Nat) (code : Nat) (m : String)
    (habs : w.sessions s = none) :
    on_message env (InMsg.chunk s d) w = (w, none)
    ∧ on_message env (InMsg.choke s) w = (w, none)
    ∧ on_message env (InMsg.error s code m) w = (w, none) := by
  refine ⟨?_, ?_, ?_⟩ <;> simp [on_message, habs]

/-- Closed instance of `C6_unknown_session_noop` at a concrete worker and
session id. -/
theorem C6_unknown_session_noop_witness :
    (worker0 "u").sessions 9 = none
    ∧ on_message env0 (InMsg.chunk 9 [1]) (worker0 "u") = (worker0 "u", none)
    ∧ on_message env0 (InMsg.choke 9) (worker0 "u") = (worker0 "u", none)
    ∧ on_message env0 (InMsg.error 9 0 "boom") (worker0 "u") = (worker0 "u", none) := by
  refine ⟨rfl, ?_⟩
  exact C6_unknown_session_noop env0 (worker0 "u") 9 [1] 0 "boom" rfl

/-- C3: receiving a HEARTBEAT disarms the disown deadline and does not rearm
it; starting from any disarmed state, the only reactor event that arms the
deadline is a heartbeat-timer fire, which both arms the deadline (fire time
plus the disown delay 2) and writes a HEARTBEAT to the peer. -/
theorem C3_heartbeat_disarm_only_send_rearms (env : Env) (w : Worker) (sess : Nat) :
    (on_message env (InMsg.heartbeat sess) w).1.disownDeadline = none
    ∧ (∀ e : Ev, ∀ w2 : Worker, w2.disownDeadline = none →
        (stepEv env e w2).disownDeadline ≠ none →
          e = Ev.hbFire
          ∧ ∃ t, w2.nextHeartbeat = some t
              ∧ (stepEv env e w2).disownDeadline = some (t + 2)
              ∧ (stepEv env e w2).out = w2.out ++ [OutMsg.heartbeat 0]) := by
  refine ⟨by simp [on_message], ?_⟩
  intro e w2 hdis harm
  cases e with
  | recv m => exact absurd (on_message_keeps_disarmed env m w2 hdis) harm
  | hbFire =>
      cases hnh : w2.nextHeartbeat with
      | none => exact absurd (by simp [stepEv, hnh, hdis]) harm
      | some t => exact ⟨rfl, t, rfl, by simp [stepEv, hnh, send_heartbeat], by simp [stepEv, hnh, send_heartbeat]⟩
  | disownFire => exact absurd (by simp [stepEv, hdis]) harm
  | sendChunk s d => exact absurd (by simp [stepEv, send_chunk, hdis]) harm
  | sendChoke s => exact absurd (by simp [stepEv, send_choke, hdis]) harm

/-- Closed instance of `C3_heartbeat_disarm_only_send_rearms`: on the freshly
constructed worker, a HEARTBEAT receipt disarms the deadline, and the next
heartbeat-timer fire (at time 5) rearms it to 7 while writing a HEARTBEAT. -/
theorem C3_heartbeat_disarm_only_send_rearms_witness :
    (on_message env0 (InMsg.heartbeat 0) (initWorker "u")).1.disownDeadline = none
    ∧ (stepEv env0 Ev.hbFire
        (on_message env0 (InMsg.heartbeat 0) (initWorker "u")).1).disownDeadline = some 7
    ∧ (stepEv env0 Ev.hbFire
        (on_message env0 (InMsg.heartbeat 0) (initWorker "u")).1).out
        = [OutMsg.handshake 0 "u", OutMsg.heartbeat 0] := by
  have h := C3_heartbeat_disarm_only_send_rearms env0 (initWorker "u") 0
  exact ⟨h.1, rfl, rfl⟩

/-- C7: on a fresh connection and along any sequence of reactor events, the
first outbound message is the single HANDSHAKE, sent with session id 0 and
carrying the configured identity token; no further HANDSHAKE is ever sent. -/
theorem C7_handshake_first_and_unique (env : Env) (uuid : String) (evs : List Ev) :
    (runEvents env evs (initWorker uuid)).out.head? = some (OutMsg.handshake 0 uuid)
    ∧ List.countP isHandshake (runEvents env evs (initWorker uuid)).out = 1 := by
  obtain ⟨rest, hout, hcnt⟩ := runEvents_handshake_first env uuid evs (initWorker uuid)
      ⟨[], rfl, rfl⟩
  refine ⟨by rw [hout]; rfl, ?_⟩
  rw [hout]
  simp [List.countP_cons, isHandshake, hcnt]

/-- C10: the disown deadline is armed by `__init__` before the handshake is
written (after the first init effect the deadline is already 2 while nothing
has been sent) and before any heartbeat send; with a peer that never sends
anything the disown timer fires first, so the reactor stops at time 2 — the
disown delay — having logged the disown and sent only the handshake. -/
theorem C10_disown_armed_at_construction (uuid : String) (fuel : Nat) (hf : 1 ≤ fuel) :
    (List.foldl execInitStep (worker0 uuid) (List.take 1 initTrace)).disownDeadline = some 2
    ∧ (List.foldl execInitStep (worker0 uuid) (List.take 1 initTrace)).out = []
    ∧ (initWorker uuid).disownDeadline = some 2
    ∧ (runSilent fuel (initWorker uuid)).running = false
    ∧ (runSilent fuel (initWorker uuid)).now = 2
    ∧ (runSilent fuel (initWorker uuid)).logs = [LogEntry.disowned]
    ∧ (runSilent fuel (initWorker uuid)).out = [OutMsg.handshake 0 uuid] := by
  obtain ⟨n, rfl⟩ : ∃ n, fuel = n + 1 := ⟨fuel - 1, by omega⟩
  have h1 : runSilent (n + 1) (initWorker uuid)
      = runSilent n (on_disown { initWorker uuid with now := 2, disownDeadline := none }) := rfl
  have h2 := runSilent_stopped
      (on_disown { initWorker uuid with now := 2, disownDeadline := none }) rfl n
  refine ⟨rfl, rfl, rfl, ?_, ?_, ?_, ?_⟩ <;> rw [h1, h2] <;> rfl

/-- Closed instance of `C10_disown_armed_at_construction` with one unit of
silent-run fuel. -/
theorem C10_disown_armed_at_construction_witness :
    1 ≤ 1
    ∧ (initWorker "u").disownDeadline = some 2
    ∧ (runSilent 1 (initWorker "u")).running = false
    ∧ (runSilent 1 (initWorker "u")).now = 2
    ∧ (runSilent 1 (initWorker "u")).logs = [LogEntry.disowned]
    ∧ (runSilent 1 (initWorker "u")).out = [OutMsg.handshake 0 "u"] := by
  have h := C10_disown_armed_at_construction "u" 1 (by decide)
  exact ⟨by decide, h.2.2.1, h.2.2.2.1, h.2.2.2.2.1, h.2.2.2.2.2.1, h.2.2.2.2.2.2⟩

end Cocaine
